import Mathlib

/-!
# AvisynthCompat: the declarations of `src/avisynth/avisynth_compat.h`

A shallow embedding of the inline code of the header: the constructors of
`FakeAvisynth`, `VSClip` and `PrefetchInfo`, the inline member functions of
`VSClip`, and the destructors of `VSClip` and `WrappedClip`.

Conventions.
* A C++ pointer is a `Ptr` (a natural number, `nullptr` is `0`).
* A machine integer is an `Int`; the two widths that matter are `int`
  (`INT_MIN .. INT_MAX`) and `int64_t`.
* A member function is a function from the object to a `Step`: the value it
  returns, the object afterwards, and the calls it made into the host or the
  legacy runtime, in order.
* A call that does not return is an `Except.error`.
-/

set_option linter.unusedVariables false

namespace AvisynthCompat

/-! ## Machine integers and pointers -/

/-- A raw pointer; the address `0` is the null pointer. -/
abbrev Ptr := Nat

/-- The null pointer. -/
def nullptr : Ptr := 0

/-- Largest value of the C type `int`. -/
def INT_MAX : Int := 2147483647

/-- Smallest value of the C type `int`. -/
def INT_MIN : Int := -2147483648

/-- Modelled from the spec: `int64ToIntS` is declared in `VSHelper.h`, which is
not among the sources. It is the conversion the constructor of `VSClip` applies
to the 64-bit frame-rate fields on their way into the legacy record; it narrows
an `int64_t` to an `int` by saturation, so its result always lies in
`INT_MIN .. INT_MAX`. -/
def int64ToIntS (i : Int) : Int :=
  if i > INT_MAX then INT_MAX
  else if i < INT_MIN then INT_MIN
  else i

/-! ## Declarations taken from the two API headers

`VapourSynth.h` and `avisynth.h` are not among the sources. The enumerators
the header compares against or stores are therefore parameters of the model.
-/

/-- The enumerators of `VapourSynth.h` and `avisynth.h` named in the header. -/
structure Enumerators where
  pfYUV420P8 : Int
  pfYUV444P8 : Int
  pfYUV422P8 : Int
  pfYUV410P8 : Int
  pfYUV411P8 : Int
  pfGray8 : Int
  pfCompatYUY2 : Int
  pfCompatBGR32 : Int
  CS_YV12 : Int
  CS_YV24 : Int
  CS_YV16 : Int
  CS_YUV9 : Int
  CS_YV411 : Int
  CS_Y8 : Int
  CS_YUY2 : Int
  CS_BGR32 : Int
  IT_BFF : Int

/-- The eight format ids the constructor of `VSClip` tests for, in the order
of its tests. -/
def Enumerators.supportedIds (K : Enumerators) : List Int :=
  [K.pfYUV420P8, K.pfYUV444P8, K.pfYUV422P8, K.pfYUV410P8,
   K.pfYUV411P8, K.pfGray8, K.pfCompatYUY2, K.pfCompatBGR32]

/-- An assignment of the enumerators: the preset format ids are colour family
plus an offset (gray `1000010`, YUV from `3000010`, compat from `9000010`), the
legacy colour spaces are bit sets. -/
def stdEnumerators : Enumerators where
  pfYUV420P8 := 3000010
  pfYUV422P8 := 3000011
  pfYUV444P8 := 3000012
  pfYUV410P8 := 3000013
  pfYUV411P8 := 3000014
  pfGray8 := 1000010
  pfCompatBGR32 := 9000010
  pfCompatYUY2 := 9000011
  CS_YV12 := -1610612728
  CS_YV24 := -1610611957
  CS_YV16 := -1610611960
  CS_YUV9 := -1610612471
  CS_YV411 := -1610611959
  CS_Y8 := -536870912
  CS_YUY2 := 1610612740
  CS_BGR32 := 1342177282
  IT_BFF := 1

/-- The message type enumerators of the host log sink. -/
inductive VSMessageType where
  | mtDebug
  | mtWarning
  | mtCritical
  | mtFatal
  deriving DecidableEq, Repr

/-- The part of `VSFormat` the header reads. -/
structure VSFormat where
  id : Int
  deriving DecidableEq, Repr

/-- The part of the host `VSVideoInfo` the header reads. `fpsNum` and `fpsDen`
are `int64_t`, the other three are `int`. -/
structure VSVideoInfo where
  format : VSFormat
  fpsNum : Int
  fpsDen : Int
  width : Int
  height : Int
  numFrames : Int
  deriving DecidableEq, Repr

/-- The legacy `VideoInfo` record, with the fields the header assigns. Each
field holds the value assigned to it. The record is declared in `avisynth.h`,
which is not among the sources, so nothing below depends on whether the two
frame-rate fields are signed: they are only compared with values in
`0 .. INT_MAX`, which an `int` and an `unsigned` hold alike. -/
structure VideoInfo where
  width : Int
  height : Int
  fps_numerator : Int
  fps_denominator : Int
  num_frames : Int
  pixel_type : Int
  audio_samples_per_second : Int
  sample_type : Int
  num_audio_samples : Int
  nchannels : Int
  image_type : Int
  deriving DecidableEq, Repr

/-- The host function table, as far as it returns values to the header. -/
structure VSAPI where
  getVideoInfo : Ptr → VSVideoInfo

/-- A call out of the header into the host engine or the legacy runtime that
acts on a lifetime. -/
inductive Effect where
  /-- The call `vsapi->freeNode(node)`. -/
  | freeNode (node : Ptr)
  /-- The reference a `PClip` held on the clip object is dropped. -/
  | releaseClip (clip : Ptr)
  /-- The expression `delete env` on a `FakeAvisynth *`. -/
  | deleteEnv (env : Ptr)
  deriving DecidableEq, Repr

/-- A fatal message: the text handed to the log sink. -/
structure Fatal where
  msg : String
  deriving DecidableEq, Repr

/-- Modelled from the spec: `vsapi->logMessage` is the fatal-logging sink of
the host engine, whose code is not among the sources. A message of type
`mtFatal` fails fatally and does not return to its caller; any other message
returns. -/
def logMessage (msgType : VSMessageType) (msg : String) : Except Fatal Unit :=
  if msgType = VSMessageType.mtFatal then Except.error ⟨msg⟩ else Except.ok ()

/-! ## `VSClip` -/

/-- The data members of `VSClip`. -/
structure VSClip where
  clip : Ptr
  fakeEnv : Ptr
  vsapi : VSAPI
  numSlowWarnings : Int
  vi : VideoInfo

/-- The constructor `VSClip::VSClip`. The member `vi` has no initializer, so
its contents before the body runs are indeterminate: they are the argument
`vi0`. -/
def VSClip.ctor (K : Enumerators) (vi0 : VideoInfo) (clip : Ptr) (numAudioSamples : Int)
    (nChannels : Int) (sampleType : Int) (fakeEnv : Ptr) (vsapi : VSAPI) :
    Except Fatal VSClip := do
  let srcVi := vsapi.getVideoInfo clip
  let mut vi := vi0
  vi := { vi with width := srcVi.width }
  vi := { vi with height := srcVi.height }
  if srcVi.format.id = K.pfYUV420P8 then
    vi := { vi with pixel_type := K.CS_YV12 }
  else if srcVi.format.id = K.pfYUV444P8 then
    vi := { vi with pixel_type := K.CS_YV24 }
  else if srcVi.format.id = K.pfYUV422P8 then
    vi := { vi with pixel_type := K.CS_YV16 }
  else if srcVi.format.id = K.pfYUV410P8 then
    vi := { vi with pixel_type := K.CS_YUV9 }
  else if srcVi.format.id = K.pfYUV411P8 then
    vi := { vi with pixel_type := K.CS_YV411 }
  else if srcVi.format.id = K.pfGray8 then
    vi := { vi with pixel_type := K.CS_Y8 }
  else if srcVi.format.id = K.pfCompatYUY2 then
    vi := { vi with pixel_type := K.CS_YUY2 }
  else if srcVi.format.id = K.pfCompatBGR32 then
    vi := { vi with pixel_type := K.CS_BGR32 }
  else
    logMessage VSMessageType.mtFatal "Bad colorspace"
  vi := { vi with image_type := K.IT_BFF }
  vi := { vi with fps_numerator := int64ToIntS srcVi.fpsNum }
  vi := { vi with fps_denominator := int64ToIntS srcVi.fpsDen }
  vi := { vi with num_frames := srcVi.numFrames }
  vi := { vi with audio_samples_per_second := 0 }
  vi := { vi with sample_type := sampleType }
  vi := { vi with num_audio_samples := numAudioSamples }
  vi := { vi with nchannels := nChannels }
  return { clip := clip, fakeEnv := fakeEnv, vsapi := vsapi, numSlowWarnings := 0, vi := vi }

/-- What a member function does: the value it returns, the object afterwards,
and the calls it made, in order. -/
structure Step (σ : Type) (α : Type) where
  ret : α
  self : σ
  effects : List Effect

/-- The member function `VSClip::GetParity`. -/
def VSClip.GetParity (self : VSClip) (n : Int) : Step VSClip Bool :=
  { ret := true, self := self, effects := [] }

/-- The member function `VSClip::GetAudio`; its body is empty. -/
def VSClip.GetAudio (self : VSClip) (buf : Ptr) (start : Int) (count : Int) (env : Ptr) :
    Step VSClip Unit :=
  { ret := (), self := self, effects := [] }

/-- The member function `VSClip::SetCacheHints`. -/
def VSClip.SetCacheHints (self : VSClip) (cachehints : Int) (frame_range : Int) :
    Step VSClip Int :=
  { ret := 0, self := self, effects := [] }

/-- The member function `VSClip::GetVideoInfo`: a reference to the member `vi`. -/
def VSClip.GetVideoInfo (self : VSClip) : Step VSClip VideoInfo :=
  { ret := self.vi, self := self, effects := [] }

/-- The destructor `VSClip::~VSClip`. -/
def VSClip.dtor (self : VSClip) : Step VSClip Unit :=
  { ret := (), self := self, effects := [Effect.freeNode self.clip] }

/-- A call of one of the member functions of `VSClip` whose body is in the
header, with its arguments. -/
inductive VSClip.Call where
  | GetParity (n : Int)
  | GetAudio (buf : Ptr) (start : Int) (count : Int) (env : Ptr)
  | SetCacheHints (cachehints : Int) (frame_range : Int)
  | GetVideoInfo
  deriving DecidableEq, Repr

/-- One call on an adapter: the adapter afterwards and the calls it made. -/
def VSClip.call (self : VSClip) : VSClip.Call → VSClip × List Effect
  | .GetParity n => ((self.GetParity n).self, (self.GetParity n).effects)
  | .GetAudio buf start count env =>
      ((self.GetAudio buf start count env).self, (self.GetAudio buf start count env).effects)
  | .SetCacheHints cachehints frame_range =>
      ((self.SetCacheHints cachehints frame_range).self,
       (self.SetCacheHints cachehints frame_range).effects)
  | .GetVideoInfo => (self.GetVideoInfo.self, self.GetVideoInfo.effects)

/-- A finite sequence of calls on an adapter, one after the other. -/
def VSClip.run (self : VSClip) : List VSClip.Call → VSClip × List Effect
  | [] => (self, [])
  | c :: cs =>
      let r := self.call c
      let rs := VSClip.run r.1 cs
      (rs.1, r.2 ++ rs.2)

/-! ## `PrefetchInfo` -/

/-- The data members of `PrefetchInfo`. -/
structure PrefetchInfo where
  div : Int
  mul : Int
  «from» : Int
  «to» : Int
  deriving DecidableEq, Repr

/-- The constructor `PrefetchInfo::PrefetchInfo`. -/
def PrefetchInfo.ctor (div : Int) (mul : Int) («from» : Int) («to» : Int) : PrefetchInfo :=
  { div := div, mul := mul, «from» := «from», «to» := «to» }

/-! ## `WrappedClip` -/

/-- The data members of `WrappedClip`; `clip` is the pointer a `PClip` holds. -/
structure WrappedClip where
  filterName : String
  prefetchInfo : PrefetchInfo
  preFetchClips : List Ptr
  clip : Ptr
  fakeEnv : Ptr
  magicalNumAudioSamplesForMVTools : Int
  magicalNChannelsForMVTools : Int
  magicalSampleTypeForMVTools : Int
  deriving DecidableEq, Repr

/-- Modelled from the spec: `PClip` is declared in `avisynth.h`, which is not
among the sources. Assigning `nullptr` to a `PClip` drops the reference it
holds on its clip object, when it holds one, and leaves it null. The result is
the pointer held afterwards and the calls made. -/
def PClip.assignNull (p : Ptr) : Ptr × List Effect :=
  (nullptr, if p = nullptr then [] else [Effect.releaseClip p])

/-- Modelled from the spec: the destructor of a `PClip` (`avisynth.h`, not
among the sources) drops the reference it holds, when it holds one. -/
def PClip.dtor (p : Ptr) : List Effect :=
  if p = nullptr then [] else [Effect.releaseClip p]

/-- The destructor `WrappedClip::~WrappedClip`: the two statements of its body,
then the destruction of the member `clip` (no other member owns anything). -/
def WrappedClip.dtor (self : WrappedClip) : Step WrappedClip Unit :=
  let r := PClip.assignNull self.clip
  let self1 := { self with clip := r.1 }
  let e1 := r.2
  let e2 := [Effect.deleteEnv self1.fakeEnv]
  let e3 := PClip.dtor self1.clip
  { ret := (), self := self1, effects := e1 ++ e2 ++ e3 }

/-! ## Lifetimes of the objects behind the pointers -/

/-- Modelled from the spec: the reference counting of `IClip` is declared in
`avisynth.h` and the destructor of `FakeAvisynth` is defined outside the
header, so neither is among the sources. A heap records, for every clip
object, the number of references held on it and whether it is still alive,
and for every environment whether it is still alive. -/
structure Heap where
  refcnt : Ptr → Nat
  clipAlive : Ptr → Bool
  envAlive : Ptr → Bool

/-- Modelled from the spec: what one call does to the heap. Dropping a
reference on a clip object lowers its count by one and destroys the object
when that was its last reference; `delete` on an environment destroys it;
`freeNode` acts on a host node, which the heap does not hold. -/
def Heap.step (h : Heap) : Effect → Heap
  | Effect.freeNode _ => h
  | Effect.releaseClip p =>
      { refcnt := fun q => if q = p then h.refcnt p - 1 else h.refcnt q
        clipAlive := fun q => if q = p ∧ h.refcnt p - 1 = 0 then false else h.clipAlive q
        envAlive := h.envAlive }
  | Effect.deleteEnv e =>
      { refcnt := h.refcnt
        clipAlive := h.clipAlive
        envAlive := fun q => if q = e then false else h.envAlive q }

/-- The heaps a sequence of calls passes through: the heap after the first
call, after the second, and so on. -/
def Heap.states (h : Heap) : List Effect → List Heap
  | [] => []
  | e :: es => h.step e :: Heap.states (h.step e) es

/-! ## `FakeAvisynth` -/

/-- The data members of `FakeAvisynth`. The map and the set are association
and element lists; the mutex is its locked flag. -/
structure FakeAvisynth where
  core : Ptr
  savedStrings : List String
  vsapi : VSAPI
  ownedFrames : List (Ptr × Ptr)
  interfaceVersion : Int
  registerFunctionLock : Bool
  registeredFunctions : List String
  initializing : Bool
  uglyN : Int
  uglyNode : Ptr
  uglyCtx : Ptr

/-- The constructor `FakeAvisynth::FakeAvisynth`: the members of its
initializer list, the others default-constructed. -/
def FakeAvisynth.ctor (interfaceVersion : Int) (core : Ptr) (vsapi : VSAPI) : FakeAvisynth :=
  { core := core
    savedStrings := []
    vsapi := vsapi
    ownedFrames := []
    interfaceVersion := interfaceVersion
    registerFunctionLock := false
    registeredFunctions := []
    initializing := true
    uglyN := -1
    uglyNode := nullptr
    uglyCtx := nullptr }

/-! ## Sample inputs -/

/-- A host function table whose every node is 720x480, 4:2:0 8-bit,
30000/1001 frames a second, 100 frames. -/
def ntscApi : VSAPI :=
  { getVideoInfo := fun _ =>
      { format := { id := 3000010 }, fpsNum := 30000, fpsDen := 1001,
        width := 720, height := 480, numFrames := 100 } }

/-- A host function table whose every node is 4:2:0 8-bit with the frame rate
`2147483648/1`, one more than `INT_MAX`. -/
def fastApi : VSAPI :=
  { getVideoInfo := fun _ =>
      { format := { id := 3000010 }, fpsNum := 2147483648, fpsDen := 1,
        width := 720, height := 480, numFrames := 100 } }

/-- A host function table whose every node is 4:4:0 8-bit (`pfYUV440P8`,
`3000015`), a format the constructor of `VSClip` does not test for. -/
def yuv440Api : VSAPI :=
  { getVideoInfo := fun _ =>
      { format := { id := 3000015 }, fpsNum := 25, fpsDen := 1,
        width := 720, height := 576, numFrames := 50 } }

/-- A descriptor whose clip is the object at `5` and whose environment is the
object at `9`. -/
def blurClip : WrappedClip :=
  { filterName := "Blur"
    prefetchInfo := PrefetchInfo.ctor 1 1 0 0
    preFetchClips := [3]
    clip := 5
    fakeEnv := 9
    magicalNumAudioSamplesForMVTools := 0
    magicalNChannelsForMVTools := 0
    magicalSampleTypeForMVTools := 0 }

/-- A heap in which every clip object is alive with two references held on it
(the one of a descriptor and one more), and every environment is alive. -/
def sharedHeap : Heap :=
  { refcnt := fun _ => 2, clipAlive := fun _ => true, envAlive := fun _ => true }

/-- A heap in which every clip object is alive with a single reference held on
it, and every environment is alive. -/
def soleHeap : Heap :=
  { refcnt := fun _ => 1, clipAlive := fun _ => true, envAlive := fun _ => true }

/-- Some contents of a `VideoInfo` before it is assigned. -/
def junkInfo : VideoInfo :=
  { width := 7, height := 7, fps_numerator := 7, fps_denominator := 7, num_frames := 7,
    pixel_type := 7, audio_samples_per_second := 7, sample_type := 7,
    num_audio_samples := 7, nchannels := 7, image_type := 7 }

/-- The constructor of `VSClip` maps the format id `pf` to the pixel type `cs`:
on every source node whose format id is `pf` it returns an adapter, and the
`pixel_type` of that adapter is `cs`. -/
def VSClip.MapsFormat (K : Enumerators) (pf : Int) (cs : Int) : Prop :=
  ∀ (vi0 : VideoInfo) (clip : Ptr) (numAudioSamples nChannels sampleType : Int)
    (fakeEnv : Ptr) (vsapi : VSAPI),
    (vsapi.getVideoInfo clip).format.id = pf →
    ∃ self, VSClip.ctor K vi0 clip numAudioSamples nChannels sampleType fakeEnv vsapi =
        Except.ok self ∧ self.vi.pixel_type = cs

/-! ## Lemmas on the constructor of `VSClip` -/

/-- The record the constructor of `VSClip` leaves in `vi` once its tests have
chosen the pixel type `pt`. -/
def VSClip.filled (K : Enumerators) (srcVi : VSVideoInfo) (pt : Int) (numAudioSamples : Int)
    (nChannels : Int) (sampleType : Int) : VideoInfo :=
  { width := srcVi.width
    height := srcVi.height
    fps_numerator := int64ToIntS srcVi.fpsNum
    fps_denominator := int64ToIntS srcVi.fpsDen
    num_frames := srcVi.numFrames
    pixel_type := pt
    audio_samples_per_second := 0
    sample_type := sampleType
    num_audio_samples := numAudioSamples
    nchannels := nChannels
    image_type := K.IT_BFF }

theorem VSClip.ctor_of_supported (K : Enumerators) (vi0 : VideoInfo) (clip : Ptr)
    (numAudioSamples nChannels sampleType : Int) (fakeEnv : Ptr) (vsapi : VSAPI)
    (h : (vsapi.getVideoInfo clip).format.id ∈ K.supportedIds) :
    ∃ pt, VSClip.ctor K vi0 clip numAudioSamples nChannels sampleType fakeEnv vsapi =
      Except.ok { clip := clip, fakeEnv := fakeEnv, vsapi := vsapi, numSlowWarnings := 0,
                  vi := VSClip.filled K (vsapi.getVideoInfo clip) pt numAudioSamples
                          nChannels sampleType } := by
  simp only [Enumerators.supportedIds, List.mem_cons, List.mem_singleton, List.not_mem_nil,
    or_false] at h
  simp only [VSClip.ctor]
  split_ifs
  all_goals first
    | exact ⟨_, rfl⟩
    | (exfalso; simp_all)

theorem VSClip.ctor_of_unsupported (K : Enumerators) (vi0 : VideoInfo) (clip : Ptr)
    (numAudioSamples nChannels sampleType : Int) (fakeEnv : Ptr) (vsapi : VSAPI)
    (h : (vsapi.getVideoInfo clip).format.id ∉ K.supportedIds) :
    VSClip.ctor K vi0 clip numAudioSamples nChannels sampleType fakeEnv vsapi =
      Except.error { msg := "Bad colorspace" } := by
  simp only [Enumerators.supportedIds, List.mem_cons, List.mem_singleton, List.not_mem_nil,
    or_false, not_or] at h
  obtain ⟨h1, h2, h3, h4, h5, h6, h7, h8⟩ := h
  simp only [VSClip.ctor, if_neg h1, if_neg h2, if_neg h3, if_neg h4, if_neg h5, if_neg h6,
    if_neg h7, if_neg h8]
  rfl

theorem VSClip.ctor_members (K : Enumerators) (vi0 : VideoInfo) (clip : Ptr)
    (numAudioSamples nChannels sampleType : Int) (fakeEnv : Ptr) (vsapi : VSAPI)
    (self : VSClip)
    (h : VSClip.ctor K vi0 clip numAudioSamples nChannels sampleType fakeEnv vsapi =
      Except.ok self) :
    self.clip = clip ∧ self.fakeEnv = fakeEnv ∧ self.numSlowWarnings = 0 ∧
    ∃ pt, self.vi = VSClip.filled K (vsapi.getVideoInfo clip) pt numAudioSamples
      nChannels sampleType := by
  by_cases hs : (vsapi.getVideoInfo clip).format.id ∈ K.supportedIds
  · obtain ⟨pt, hpt⟩ := VSClip.ctor_of_supported K vi0 clip numAudioSamples nChannels
      sampleType fakeEnv vsapi hs
    rw [hpt] at h
    injection h with h
    subst h
    exact ⟨rfl, rfl, rfl, pt, rfl⟩
  · rw [VSClip.ctor_of_unsupported K vi0 clip numAudioSamples nChannels sampleType fakeEnv
      vsapi hs] at h
    cases h

theorem int64ToIntS_of_fits (i : Int) (hlo : INT_MIN ≤ i) (hhi : i ≤ INT_MAX) :
    int64ToIntS i = i := by
  unfold int64ToIntS
  rw [if_neg (not_lt.mpr hhi), if_neg (not_lt.mpr hlo)]

theorem int64ToIntS_of_large (i : Int) (h : INT_MAX < i) : int64ToIntS i = INT_MAX := by
  unfold int64ToIntS
  rw [if_pos h]

theorem int64ToIntS_of_small (i : Int) (h : i < INT_MIN) : int64ToIntS i = INT_MIN := by
  have h2 : ¬ i > INT_MAX := by
    unfold INT_MIN at h
    unfold INT_MAX
    omega
  unfold int64ToIntS
  rw [if_neg h2, if_pos h]

theorem int64ToIntS_fits (i : Int) : INT_MIN ≤ int64ToIntS i ∧ int64ToIntS i ≤ INT_MAX := by
  unfold int64ToIntS
  split_ifs with h1 h2
  · decide
  · decide
  · exact ⟨not_lt.mp h2, not_lt.mp h1⟩

theorem VSClip.run_noop (self : VSClip) (calls : List VSClip.Call) :
    self.run calls = (self, []) := by
  induction calls with
  | nil => rfl
  | cons c cs ih =>
    cases c <;> simpa [VSClip.run, VSClip.call, VSClip.GetParity, VSClip.GetAudio,
      VSClip.SetCacheHints, VSClip.GetVideoInfo] using ih

theorem VSClip.mapsFormat_pfYUV420P8 (K : Enumerators) (hK : K.supportedIds.Nodup) :
    VSClip.MapsFormat K K.pfYUV420P8 K.CS_YV12 := by
  simp only [Enumerators.supportedIds, List.nodup_cons, List.mem_cons, List.mem_singleton,
    List.not_mem_nil, or_false, not_or, List.nodup_nil, and_true] at hK
  intro vi0 clip numAudioSamples nChannels sampleType fakeEnv vsapi h
  simp only [VSClip.ctor, h]
  split_ifs
  all_goals first
    | (exfalso; simp_all; done)
    | exact ⟨_, rfl, rfl⟩

theorem VSClip.mapsFormat_pfYUV444P8 (K : Enumerators) (hK : K.supportedIds.Nodup) :
    VSClip.MapsFormat K K.pfYUV444P8 K.CS_YV24 := by
  simp only [Enumerators.supportedIds, List.nodup_cons, List.mem_cons, List.mem_singleton,
    List.not_mem_nil, or_false, not_or, List.nodup_nil, and_true] at hK
  intro vi0 clip numAudioSamples nChannels sampleType fakeEnv vsapi h
  simp only [VSClip.ctor, h]
  split_ifs
  all_goals first
    | (exfalso; simp_all; done)
    | exact ⟨_, rfl, rfl⟩

theorem VSClip.mapsFormat_pfYUV422P8 (K : Enumerators) (hK : K.supportedIds.Nodup) :
    VSClip.MapsFormat K K.pfYUV422P8 K.CS_YV16 := by
  simp only [Enumerators.supportedIds, List.nodup_cons, List.mem_cons, List.mem_singleton,
    List.not_mem_nil, or_false, not_or, List.nodup_nil, and_true] at hK
  intro vi0 clip numAudioSamples nChannels sampleType fakeEnv vsapi h
  simp only [VSClip.ctor, h]
  split_ifs
  all_goals first
    | (exfalso; simp_all; done)
    | exact ⟨_, rfl, rfl⟩

theorem VSClip.mapsFormat_pfYUV410P8 (K : Enumerators) (hK : K.supportedIds.Nodup) :
    VSClip.MapsFormat K K.pfYUV410P8 K.CS_YUV9 := by
  simp only [Enumerators.supportedIds, List.nodup_cons, List.mem_cons, List.mem_singleton,
    List.not_mem_nil, or_false, not_or, List.nodup_nil, and_true] at hK
  intro vi0 clip numAudioSamples nChannels sampleType fakeEnv vsapi h
  simp only [VSClip.ctor, h]
  split_ifs
  all_goals first
    | (exfalso; simp_all; done)
    | exact ⟨_, rfl, rfl⟩

theorem VSClip.mapsFormat_pfYUV411P8 (K : Enumerators) (hK : K.supportedIds.Nodup) :
    VSClip.MapsFormat K K.pfYUV411P8 K.CS_YV411 := by
  simp only [Enumerators.supportedIds, List.nodup_cons, List.mem_cons, List.mem_singleton,
    List.not_mem_nil, or_false, not_or, List.nodup_nil, and_true] at hK
  intro vi0 clip numAudioSamples nChannels sampleType fakeEnv vsapi h
  simp only [VSClip.ctor, h]
  split_ifs
  all_goals first
    | (exfalso; simp_all; done)
    | exact ⟨_, rfl, rfl⟩

theorem VSClip.mapsFormat_pfGray8 (K : Enumerators) (hK : K.supportedIds.Nodup) :
    VSClip.MapsFormat K K.pfGray8 K.CS_Y8 := by
  simp only [Enumerators.supportedIds, List.nodup_cons, List.mem_cons, List.mem_singleton,
    List.not_mem_nil, or_false, not_or, List.nodup_nil, and_true] at hK
  intro vi0 clip numAudioSamples nChannels sampleType fakeEnv vsapi h
  simp only [VSClip.ctor, h]
  split_ifs
  all_goals first
    | (exfalso; simp_all; done)
    | exact ⟨_, rfl, rfl⟩

theorem VSClip.mapsFormat_pfCompatYUY2 (K : Enumerators) (hK : K.supportedIds.Nodup) :
    VSClip.MapsFormat K K.pfCompatYUY2 K.CS_YUY2 := by
  simp only [Enumerators.supportedIds, List.nodup_cons, List.mem_cons, List.mem_singleton,
    List.not_mem_nil, or_false, not_or, List.nodup_nil, and_true] at hK
  intro vi0 clip numAudioSamples nChannels sampleType fakeEnv vsapi h
  simp only [VSClip.ctor, h]
  split_ifs
  all_goals first
    | (exfalso; simp_all; done)
    | exact ⟨_, rfl, rfl⟩

theorem VSClip.mapsFormat_pfCompatBGR32 (K : Enumerators) (hK : K.supportedIds.Nodup) :
    VSClip.MapsFormat K K.pfCompatBGR32 K.CS_BGR32 := by
  simp only [Enumerators.supportedIds, List.nodup_cons, List.mem_cons, List.mem_singleton,
    List.not_mem_nil, or_false, not_or, List.nodup_nil, and_true] at hK
  intro vi0 clip numAudioSamples nChannels sampleType fakeEnv vsapi h
  simp only [VSClip.ctor, h]
  split_ifs
  all_goals first
    | (exfalso; simp_all; done)
    | exact ⟨_, rfl, rfl⟩

/-! ## The claims -/

/-- C1 (as amended). For a source node whose format id is one of the eight the
constructor tests for, `VSClip::VSClip` returns an adapter whose `width`,
`height` and `num_frames` equal the source `width`, `height` and `numFrames`
for every value of those fields; `fps_numerator` and `fps_denominator` equal
`fpsNum` and `fpsDen` whenever these lie in `0 .. INT_MAX`, and a rate above
`INT_MAX` is stored as `INT_MAX`. -/
theorem VSClip_ctor_video_info_matches_source (K : Enumerators) (vi0 : VideoInfo)
    (clip : Ptr) (numAudioSamples nChannels sampleType : Int) (fakeEnv : Ptr) (vsapi : VSAPI)
    (hfmt : (vsapi.getVideoInfo clip).format.id ∈ K.supportedIds) :
    ∃ self, VSClip.ctor K vi0 clip numAudioSamples nChannels sampleType fakeEnv vsapi =
        Except.ok self ∧
      self.vi.width = (vsapi.getVideoInfo clip).width ∧
      self.vi.height = (vsapi.getVideoInfo clip).height ∧
      self.vi.num_frames = (vsapi.getVideoInfo clip).numFrames ∧
      (0 ≤ (vsapi.getVideoInfo clip).fpsNum → (vsapi.getVideoInfo clip).fpsNum ≤ INT_MAX →
        self.vi.fps_numerator = (vsapi.getVideoInfo clip).fpsNum) ∧
      (0 ≤ (vsapi.getVideoInfo clip).fpsDen → (vsapi.getVideoInfo clip).fpsDen ≤ INT_MAX →
        self.vi.fps_denominator = (vsapi.getVideoInfo clip).fpsDen) ∧
      (INT_MAX < (vsapi.getVideoInfo clip).fpsNum → self.vi.fps_numerator = INT_MAX) ∧
      (INT_MAX < (vsapi.getVideoInfo clip).fpsDen → self.vi.fps_denominator = INT_MAX) := by
  obtain ⟨pt, hpt⟩ := VSClip.ctor_of_supported K vi0 clip numAudioSamples nChannels
    sampleType fakeEnv vsapi hfmt
  have hmin : INT_MIN ≤ 0 := by decide
  refine ⟨_, hpt, rfl, rfl, rfl, ?_, ?_, ?_, ?_⟩
  · intro h0 h1
    exact int64ToIntS_of_fits _ (le_trans hmin h0) h1
  · intro h0 h1
    exact int64ToIntS_of_fits _ (le_trans hmin h0) h1
  · intro h
    exact int64ToIntS_of_large _ h
  · intro h
    exact int64ToIntS_of_large _ h

/-- Witness of C1 (as amended): the 720x480 node at 30000/1001. -/
theorem VSClip_ctor_video_info_matches_source_witness :
    (ntscApi.getVideoInfo 1).format.id ∈ stdEnumerators.supportedIds ∧
    ∃ self, VSClip.ctor stdEnumerators junkInfo 1 0 0 0 2 ntscApi = Except.ok self ∧
      self.vi.width = 720 ∧ self.vi.height = 480 ∧ self.vi.num_frames = 100 ∧
      self.vi.fps_numerator = 30000 ∧ self.vi.fps_denominator = 1001 := by
  have hfmt : (ntscApi.getVideoInfo 1).format.id ∈ stdEnumerators.supportedIds := by decide
  obtain ⟨self, h, hw, hh, hn, hnum, hden, _, _⟩ :=
    VSClip_ctor_video_info_matches_source stdEnumerators junkInfo 1 0 0 0 2 ntscApi hfmt
  exact ⟨hfmt, self, h, hw, hh, hn, hnum (by decide) (by decide), hden (by decide) (by decide)⟩

/-- C1 (counterexample). A 4:2:0 8-bit node whose `fpsNum` is `2147483648`
(`INT_MAX + 1`) yields an adapter whose `fps_numerator` is `2147483647`, not
the source value. -/
theorem VSClip_ctor_fps_numerator_saturates :
    (fastApi.getVideoInfo 1).format.id ∈ stdEnumerators.supportedIds ∧
    (fastApi.getVideoInfo 1).fpsNum = 2147483648 ∧
    ∃ self, VSClip.ctor stdEnumerators junkInfo 1 0 0 0 2 fastApi = Except.ok self ∧
      self.vi.fps_numerator = 2147483647 ∧
      self.vi.fps_numerator ≠ (fastApi.getVideoInfo 1).fpsNum := by
  refine ⟨by decide, rfl, _, rfl, by decide, by decide⟩

/-- C2. For a source node whose format id is none of the eight the constructor
tests for, `VSClip::VSClip` fails fatally with the message "Bad colorspace":
it does not complete and returns no adapter. -/
theorem VSClip_ctor_unsupported_is_fatal (K : Enumerators) (vi0 : VideoInfo) (clip : Ptr)
    (numAudioSamples nChannels sampleType : Int) (fakeEnv : Ptr) (vsapi : VSAPI)
    (hfmt : (vsapi.getVideoInfo clip).format.id ∉ K.supportedIds) :
    VSClip.ctor K vi0 clip numAudioSamples nChannels sampleType fakeEnv vsapi =
        Except.error { msg := "Bad colorspace" } ∧
      ∀ self, VSClip.ctor K vi0 clip numAudioSamples nChannels sampleType fakeEnv vsapi ≠
        Except.ok self := by
  have h := VSClip.ctor_of_unsupported K vi0 clip numAudioSamples nChannels sampleType
    fakeEnv vsapi hfmt
  refine ⟨h, ?_⟩
  intro self hok
  rw [h] at hok
  cases hok

/-- Witness of C2: a 4:4:0 8-bit node (id `3000015`). -/
theorem VSClip_ctor_unsupported_is_fatal_witness :
    (yuv440Api.getVideoInfo 1).format.id ∉ stdEnumerators.supportedIds ∧
    VSClip.ctor stdEnumerators junkInfo 1 0 0 0 2 yuv440Api =
      Except.error { msg := "Bad colorspace" } :=
  ⟨by decide,
   (VSClip_ctor_unsupported_is_fatal stdEnumerators junkInfo 1 0 0 0 2 yuv440Api
      (by decide)).1⟩

/-- C3. With the eight preset format ids pairwise distinct, `VSClip::VSClip`
stores `CS_YV12` for `pfYUV420P8`, `CS_YV24` for `pfYUV444P8`, `CS_YV16` for
`pfYUV422P8`, `CS_YUV9` for `pfYUV410P8`, `CS_YV411` for `pfYUV411P8`, `CS_Y8`
for `pfGray8`, `CS_YUY2` for `pfCompatYUY2` and `CS_BGR32` for `pfCompatBGR32`;
and a node of 720x480, `pfYUV420P8`, 30000/1001, 100 frames yields an adapter
with pixel type `CS_YV12`, frame rate 30000/1001 and 100 frames. -/
theorem VSClip_ctor_pixel_type_table (K : Enumerators) (hK : K.supportedIds.Nodup) :
    VSClip.MapsFormat K K.pfYUV420P8 K.CS_YV12 ∧
    VSClip.MapsFormat K K.pfYUV444P8 K.CS_YV24 ∧
    VSClip.MapsFormat K K.pfYUV422P8 K.CS_YV16 ∧
    VSClip.MapsFormat K K.pfYUV410P8 K.CS_YUV9 ∧
    VSClip.MapsFormat K K.pfYUV411P8 K.CS_YV411 ∧
    VSClip.MapsFormat K K.pfGray8 K.CS_Y8 ∧
    VSClip.MapsFormat K K.pfCompatYUY2 K.CS_YUY2 ∧
    VSClip.MapsFormat K K.pfCompatBGR32 K.CS_BGR32 ∧
    (∀ (vi0 : VideoInfo) (clip : Ptr) (numAudioSamples nChannels sampleType : Int)
        (fakeEnv : Ptr) (vsapi : VSAPI),
      vsapi.getVideoInfo clip =
        { format := { id := K.pfYUV420P8 }, fpsNum := 30000, fpsDen := 1001,
          width := 720, height := 480, numFrames := 100 } →
      ∃ self, VSClip.ctor K vi0 clip numAudioSamples nChannels sampleType fakeEnv vsapi =
          Except.ok self ∧
        self.vi.pixel_type = K.CS_YV12 ∧ self.vi.fps_numerator = 30000 ∧
        self.vi.fps_denominator = 1001 ∧ self.vi.num_frames = 100 ∧
        self.vi.width = 720 ∧ self.vi.height = 480) := by
  refine ⟨VSClip.mapsFormat_pfYUV420P8 K hK, VSClip.mapsFormat_pfYUV444P8 K hK,
    VSClip.mapsFormat_pfYUV422P8 K hK, VSClip.mapsFormat_pfYUV410P8 K hK,
    VSClip.mapsFormat_pfYUV411P8 K hK, VSClip.mapsFormat_pfGray8 K hK,
    VSClip.mapsFormat_pfCompatYUY2 K hK, VSClip.mapsFormat_pfCompatBGR32 K hK, ?_⟩
  intro vi0 clip numAudioSamples nChannels sampleType fakeEnv vsapi h
  simp only [VSClip.ctor, h]
  rw [if_pos trivial]
  exact ⟨_, rfl, rfl, rfl, rfl, rfl, rfl, rfl⟩

/-- Witness of C3: the preset ids of the host header are pairwise distinct, and
a 4:4:4 8-bit node (id `3000012`) gets the pixel type `CS_YV24`. -/
theorem VSClip_ctor_pixel_type_table_witness :
    stdEnumerators.supportedIds.Nodup ∧
    VSClip.MapsFormat stdEnumerators 3000012 (-1610611957) ∧
    ∃ self, VSClip.ctor stdEnumerators junkInfo 1 0 0 0 2 ntscApi = Except.ok self ∧
      self.vi.pixel_type = -1610612728 ∧ self.vi.fps_numerator = 30000 ∧
      self.vi.fps_denominator = 1001 ∧ self.vi.num_frames = 100 :=
  have hK : stdEnumerators.supportedIds.Nodup := by decide
  have h := VSClip_ctor_pixel_type_table stdEnumerators hK
  ⟨hK, h.2.1,
   (h.2.2.2.2.2.2.2.2 junkInfo 1 0 0 0 2 ntscApi rfl).imp
     fun _ hs => ⟨hs.1, hs.2.1, hs.2.2.1, hs.2.2.2.1, hs.2.2.2.2.1⟩⟩

/-- C4 (as amended). `PrefetchInfo(div, mul, from, to)` stores its four
arguments unchanged and checks nothing: the descriptor it builds has
`to > from` exactly when the arguments passed have. -/
theorem PrefetchInfo_ctor_stores_arguments (div mul «from» «to» : Int) :
    (PrefetchInfo.ctor div mul «from» «to»).div = div ∧
    (PrefetchInfo.ctor div mul «from» «to»).mul = mul ∧
    (PrefetchInfo.ctor div mul «from» «to»).«from» = «from» ∧
    (PrefetchInfo.ctor div mul «from» «to»).«to» = «to» ∧
    ((PrefetchInfo.ctor div mul «from» «to»).«to» >
        (PrefetchInfo.ctor div mul «from» «to»).«from» ↔ «to» > «from») :=
  ⟨rfl, rfl, rfl, rfl, Iff.rfl⟩

/-- C4 (counterexample). `PrefetchInfo(1, 1, 0, 0)` is constructed, and its `to`
is not greater than its `from`. -/
theorem PrefetchInfo_ctor_to_not_above_from :
    ¬ ((PrefetchInfo.ctor 1 1 0 0).«to» > (PrefetchInfo.ctor 1 1 0 0).«from») := by
  decide

/-- C5. `GetVideoInfo` returns the member `vi`, and after any finite sequence of
`GetParity`, `GetAudio`, `SetCacheHints` and `GetVideoInfo` calls it returns the
record it returned before the sequence; the sequence leaves `vi` and the node
handle as they were and makes no call into the host. -/
theorem VSClip_GetVideoInfo_is_snapshot (self : VSClip) (calls : List VSClip.Call) :
    ((self.run calls).1.GetVideoInfo).ret = (self.GetVideoInfo).ret ∧
    (self.GetVideoInfo).ret = self.vi ∧
    (self.run calls).1.vi = self.vi ∧
    (self.run calls).1.clip = self.clip ∧
    (self.run calls).2 = [] := by
  rw [VSClip.run_noop]
  exact ⟨rfl, rfl, rfl, rfl, rfl⟩

/-- C6 (as amended). The destructor of `WrappedClip` evaluates `delete fakeEnv`
exactly once, on the descriptor's own `fakeEnv`, and deletes nothing else; the
reference the descriptor holds on its clip is dropped before that, and `clip`
is null when the environment is deleted. When the descriptor holds the last
reference on its filter instance, the instance is destroyed by that drop, the
drop leaves the environment as it was, and the instance stays destroyed in
every later heap: the environment outlives it. -/
theorem WrappedClip_dtor_deletes_env_after_last_release (self : WrappedClip) (h : Heap) :
    (self.dtor).effects =
        (if self.clip = nullptr then [] else [Effect.releaseClip self.clip]) ++
          [Effect.deleteEnv self.fakeEnv] ∧
    (self.dtor).effects.count (Effect.deleteEnv self.fakeEnv) = 1 ∧
    (∀ env, Effect.deleteEnv env ∈ (self.dtor).effects → env = self.fakeEnv) ∧
    (self.dtor).effects.getLast? = some (Effect.deleteEnv self.fakeEnv) ∧
    (self.dtor).self.clip = nullptr ∧
    (self.clip ≠ nullptr → h.refcnt self.clip = 1 →
      h.states (self.dtor).effects =
          [h.step (Effect.releaseClip self.clip),
           (h.step (Effect.releaseClip self.clip)).step (Effect.deleteEnv self.fakeEnv)] ∧
        (h.step (Effect.releaseClip self.clip)).clipAlive self.clip = false ∧
        (h.step (Effect.releaseClip self.clip)).envAlive self.fakeEnv =
          h.envAlive self.fakeEnv ∧
        ((h.step (Effect.releaseClip self.clip)).step
          (Effect.deleteEnv self.fakeEnv)).envAlive self.fakeEnv = false ∧
        ∀ h1 ∈ h.states (self.dtor).effects, h1.clipAlive self.clip = false) := by
  have he : (self.dtor).effects =
      (if self.clip = nullptr then [] else [Effect.releaseClip self.clip]) ++
        [Effect.deleteEnv self.fakeEnv] := by
    simp [WrappedClip.dtor, PClip.assignNull, PClip.dtor]
  refine ⟨he, ?_, ?_, ?_, rfl, ?_⟩
  · rw [he]
    split_ifs <;> simp
  · intro env
    rw [he]
    split_ifs <;> simp
  · rw [he]
    split_ifs <;> simp
  · intro hclip hlast
    have hs : h.states (self.dtor).effects =
        [h.step (Effect.releaseClip self.clip),
         (h.step (Effect.releaseClip self.clip)).step (Effect.deleteEnv self.fakeEnv)] := by
      rw [he, if_neg hclip]
      rfl
    have hdead : (h.step (Effect.releaseClip self.clip)).clipAlive self.clip = false := by
      simp [Heap.step, hlast]
    refine ⟨hs, hdead, rfl, ?_, ?_⟩
    · simp [Heap.step]
    · intro h1 hmem
      rw [hs] at hmem
      simp only [List.mem_cons, List.mem_singleton, List.not_mem_nil, or_false] at hmem
      rcases hmem with rfl | rfl
      · exact hdead
      · exact hdead

/-- Example for C6 (as amended): the descriptor `blurClip` holding the only
reference on its filter instance; the instance is destroyed while the
environment is still alive, then the environment is deleted. -/
theorem WrappedClip_dtor_deletes_env_after_last_release_example :
    (blurClip.dtor).effects = [Effect.releaseClip 5, Effect.deleteEnv 9] ∧
    (soleHeap.step (Effect.releaseClip 5)).clipAlive 5 = false ∧
    (soleHeap.step (Effect.releaseClip 5)).envAlive 9 = true ∧
    ((soleHeap.step (Effect.releaseClip 5)).step (Effect.deleteEnv 9)).envAlive 9 = false :=
  have h := WrappedClip_dtor_deletes_env_after_last_release blurClip soleHeap
  have h6 := h.2.2.2.2.2 (by decide) rfl
  ⟨h.1, h6.2.1, h6.2.2.1, h6.2.2.2.1⟩

/-- C6 (counterexample). With a second reference held on the filter instance of
`blurClip`, its destructor leaves the instance alive, with one reference, in
the heap in which the environment has been deleted: the environment does not
outlive the filter instance. -/
theorem WrappedClip_dtor_filter_survives_env :
    (blurClip.dtor).effects = [Effect.releaseClip 5, Effect.deleteEnv 9] ∧
    ((sharedHeap.step (Effect.releaseClip 5)).step (Effect.deleteEnv 9)).envAlive 9 = false ∧
    ((sharedHeap.step (Effect.releaseClip 5)).step (Effect.deleteEnv 9)).clipAlive 5 = true ∧
    ((sharedHeap.step (Effect.releaseClip 5)).step (Effect.deleteEnv 9)).refcnt 5 = 1 ∧
    ((sharedHeap.states (blurClip.dtor).effects).map
        fun h1 => (h1.clipAlive 5, h1.envAlive 9)) = [(true, true), (true, false)] := by
  refine ⟨by decide, by decide, by decide, by decide, by decide⟩

/-- C7. `GetParity` returns `true` on every adapter and for every frame index,
negative and out-of-range indices included, and leaves the adapter as it was. -/
theorem VSClip_GetParity_is_true (self : VSClip) (n : Int) :
    (self.GetParity n).ret = true ∧ (self.GetParity n).self = self :=
  ⟨rfl, rfl⟩

/-- C8. On an adapter built by `VSClip::VSClip` from the node handle `node`, and
after any finite sequence of the member functions defined in the header, the
destructor calls `freeNode` exactly once, on `node`, and nothing else; the
sequence itself frees nothing and leaves the handle in place. -/
theorem VSClip_dtor_frees_constructor_node (K : Enumerators) (vi0 : VideoInfo) (node : Ptr)
    (numAudioSamples nChannels sampleType : Int) (fakeEnv : Ptr) (vsapi : VSAPI)
    (self : VSClip) (calls : List VSClip.Call)
    (hctor : VSClip.ctor K vi0 node numAudioSamples nChannels sampleType fakeEnv vsapi =
      Except.ok self) :
    self.clip = node ∧
    (self.run calls).2 = [] ∧
    (self.run calls).1.clip = node ∧
    ((self.run calls).1.dtor).effects = [Effect.freeNode node] ∧
    ((self.run calls).1.dtor).effects.count (Effect.freeNode node) = 1 := by
  have hclip : self.clip = node :=
    (VSClip.ctor_members K vi0 node numAudioSamples nChannels sampleType fakeEnv vsapi
      self hctor).1
  rw [VSClip.run_noop]
  subst hclip
  refine ⟨rfl, rfl, rfl, rfl, ?_⟩
  simp [VSClip.dtor]

/-- Witness of C8: the adapter of node `1`, after one call of each member
function, is destroyed with the single call `freeNode(1)`. -/
theorem VSClip_dtor_frees_constructor_node_witness :
    ∃ self, VSClip.ctor stdEnumerators junkInfo 1 0 0 0 2 ntscApi = Except.ok self ∧
      ((self.run [VSClip.Call.GetParity 5, VSClip.Call.GetAudio 3 0 16 2,
          VSClip.Call.SetCacheHints 1 4, VSClip.Call.GetVideoInfo]).1.dtor).effects =
        [Effect.freeNode 1] :=
  ⟨_, rfl,
   (VSClip_dtor_frees_constructor_node stdEnumerators junkInfo 1 0 0 0 2 ntscApi _
      [VSClip.Call.GetParity 5, VSClip.Call.GetAudio 3 0 16 2,
        VSClip.Call.SetCacheHints 1 4, VSClip.Call.GetVideoInfo] rfl).2.2.2.1⟩

/-- C10. For every `interfaceVersion`, `core` and `vsapi`, the constructor of
`FakeAvisynth` yields `uglyN = -1`, null `uglyNode` and `uglyCtx`,
`initializing = true`, an empty owned-frames table, an empty set of registered
functions, and the three arguments stored unchanged. -/
theorem FakeAvisynth_ctor_is_cleared (interfaceVersion : Int) (core : Ptr) (vsapi : VSAPI) :
    (FakeAvisynth.ctor interfaceVersion core vsapi).uglyN = -1 ∧
    (FakeAvisynth.ctor interfaceVersion core vsapi).uglyNode = nullptr ∧
    (FakeAvisynth.ctor interfaceVersion core vsapi).uglyCtx = nullptr ∧
    (FakeAvisynth.ctor interfaceVersion core vsapi).initializing = true ∧
    (FakeAvisynth.ctor interfaceVersion core vsapi).ownedFrames = [] ∧
    (FakeAvisynth.ctor interfaceVersion core vsapi).registeredFunctions = [] ∧
    (FakeAvisynth.ctor interfaceVersion core vsapi).interfaceVersion = interfaceVersion ∧
    (FakeAvisynth.ctor interfaceVersion core vsapi).core = core ∧
    (FakeAvisynth.ctor interfaceVersion core vsapi).vsapi = vsapi :=
  ⟨rfl, rfl, rfl, rfl, rfl, rfl, rfl, rfl, rfl⟩

end AvisynthCompat
